import Mathlib

/-!
Verification development for the cursor-subagent repository.

The repository is a Python wrapper around an external `cursor-agent`
executable.  Its core is a path-redirection mechanism: a dylib
(`redirect_interpose.c`, injected through `DYLD_INSERT_LIBRARIES`)
rewrites file-system paths that fall under a configured source
directory so that they fall under a configured target directory,
controlled by the environment variables `CURSOR_REDIRECT_SOURCE` and
`CURSOR_REDIRECT_TARGET`.  The Python glue (`core.py`, `cli.py`,
`server.py`) locates the dylib, lists agent directories, and launches
the executable with the redirect environment populated.

File-system paths are modelled as lists of characters (`FsPath`);
environments as functions from variable names to `Option String`;
the file system as boolean/list-valued oracles inside a `World`
structure.  The C source of the dylib is not present in the snapshot
(only `setup.py` compiles it), so the rewrite rule and its
configuration are modelled from the specification text; everything
else is translated from the Python sources.
-/

/-- File-system paths for the rewrite rule, modelled as lists of characters. -/
abbrev FsPath := List Char

/-- Modelled from the spec: the segment-boundary matching test of the Path
Rewrite Rule implemented by the missing `redirect_interpose.c`.
`underSource s p` holds when `p` matches the source directory `s` treated as a
directory path: `p` equals `s`, or `p` starts with `s` followed by the
separator character. -/
def underSource (s p : FsPath) : Bool :=
  p == s || (s ++ ['/']).isPrefixOf p

/-- Modelled from the spec: the Path Rewrite Rule of the missing
`redirect_interpose.c`.  With an inactive configuration every path passes
through unchanged; with an active pair `(s, t)` a path under `s` (on a
path-segment boundary) becomes `t` followed by the part of the path after
the `s`-prefix, and every other path passes through unchanged. -/
def rewrite (cfg : Option (FsPath × FsPath)) (p : FsPath) : FsPath :=
  match cfg with
  | none => p
  | some (s, t) => if underSource s p then t ++ p.drop s.length else p

/-- Absolute-path test on the character-list model: the path starts with the
separator character. -/
def isAbsolute (p : FsPath) : Bool :=
  match p with
  | [] => false
  | c :: _ => c == '/'

/-- Modelled from the spec: one-time initialization of `RedirectConfig` of the
missing `redirect_interpose.c` from the values of `CURSOR_REDIRECT_SOURCE`
and `CURSOR_REDIRECT_TARGET` (`none` = variable unset).  An unset or empty
variable, or a value that is not an absolute path, disables redirection
entirely (result `none`); both fields are present exactly when the result is
`some`. -/
def initConfig (srcVar tgtVar : Option FsPath) : Option (FsPath × FsPath) :=
  match srcVar, tgtVar with
  | some s, some t =>
      if s = [] || t = [] || !isAbsolute s || !isAbsolute t then none
      else some (s, t)
  | _, _ => none

theorem underSource_iff {s p : FsPath} :
    underSource s p = true ↔ (p = s ∨ (s ++ ['/']) <+: p) := by
  simp [underSource]

theorem underSource_eq_false {s p : FsPath} :
    underSource s p = false ↔ ¬ (p = s ∨ (s ++ ['/']) <+: p) := by
  rw [← Bool.not_eq_true, underSource_iff]

/-- Claim C1: with an active configuration `(s, t)` the rewrite rule returns
`t ++ p.drop s.length` exactly when `p` matches `s` on a path-segment
boundary (`p = s`, or `p` starts with `s` followed by a separator), returns
every other path unchanged (in particular paths sharing only a raw string
prefix with `s`), and rewrites `s` itself to exactly `t`. -/
theorem rewrite_segment_boundary (s t p : FsPath) :
    ((p = s ∨ (s ++ ['/']) <+: p) → rewrite (some (s, t)) p = t ++ p.drop s.length) ∧
    (¬ (p = s ∨ (s ++ ['/']) <+: p) → rewrite (some (s, t)) p = p) ∧
    rewrite (some (s, t)) s = t := by
  refine ⟨fun h => ?_, fun h => ?_, ?_⟩
  · simp [rewrite, underSource_iff.2 h]
  · simp [rewrite, underSource_eq_false.2 h]
  · simp [rewrite, underSource_iff.2 (Or.inl rfl), List.drop_length]

/-- Witness for C1: `sourceDir = /a/.cursor`, `targetDir = /tgt`; the nested
path `/a/.cursor/rules.txt` is rewritten to `/tgt/rules.txt`, while
`/a/.cursorfoo` (raw string prefix only) passes through unchanged. -/
theorem rewrite_segment_boundary_witness :
    rewrite (some ("/a/.cursor".toList, "/tgt".toList)) "/a/.cursor/rules.txt".toList
        = "/tgt/rules.txt".toList ∧
    rewrite (some ("/a/.cursor".toList, "/tgt".toList)) "/a/.cursorfoo".toList
        = "/a/.cursorfoo".toList := by
  constructor
  · rw [(rewrite_segment_boundary "/a/.cursor".toList "/tgt".toList
        "/a/.cursor/rules.txt".toList).1 (Or.inr (by decide))]
    decide
  · exact (rewrite_segment_boundary "/a/.cursor".toList "/tgt".toList
        "/a/.cursorfoo".toList).2.1 (by decide)

/-- Claim C2: if either redirect environment variable is unset or empty, the
initialized configuration is disabled and the rewrite rule is pure
pass-through on every path (the rule never fails; its worst case is a
no-op). -/
theorem rewrite_disabled_pass_through (srcVar tgtVar : Option FsPath) (p : FsPath)
    (h : srcVar = none ∨ tgtVar = none ∨ srcVar = some [] ∨ tgtVar = some []) :
    rewrite (initConfig srcVar tgtVar) p = p := by
  rcases h with h | h | h | h <;> subst h <;>
    first
      | (cases tgtVar <;> simp [initConfig, rewrite])
      | (cases srcVar <;> simp [initConfig, rewrite])

/-- Witness for C2: with `CURSOR_REDIRECT_SOURCE` unset and a target set,
the path `/a/b` passes through unchanged. -/
theorem rewrite_disabled_pass_through_witness :
    rewrite (initConfig none (some "/x".toList)) "/a/b".toList = "/a/b".toList :=
  rewrite_disabled_pass_through none (some "/x".toList) "/a/b".toList (Or.inl rfl)

/-- Claim C3: a malformed configuration — only one of the two variables set,
or a set value that is not an absolute path — is treated as
configuration-absent: `initConfig` yields `none` (so the two fields of the
configuration are both absent; they are both present exactly in the `some`
case, by construction), and no rewrite is ever applied, partially or
otherwise. -/
theorem initConfig_malformed_disabled (srcVar tgtVar : Option FsPath)
    (h : srcVar = none ∨ tgtVar = none ∨
         (∃ s, srcVar = some s ∧ isAbsolute s = false) ∨
         (∃ t, tgtVar = some t ∧ isAbsolute t = false)) :
    initConfig srcVar tgtVar = none ∧
      ∀ p, rewrite (initConfig srcVar tgtVar) p = p := by
  have hnone : initConfig srcVar tgtVar = none := by
    rcases h with h | h | ⟨s, hs, habs⟩ | ⟨t, ht, habs⟩
    · subst h; cases tgtVar <;> simp [initConfig]
    · subst h; cases srcVar <;> simp [initConfig]
    · subst hs; cases tgtVar <;> simp [initConfig, habs]
    · subst ht; cases srcVar <;> simp [initConfig, habs]
  exact ⟨hnone, fun p => by rw [hnone]; rfl⟩

/-- Witness for C3: source set to the relative path `a/b` (not absolute) with
a valid absolute target yields a disabled configuration and pass-through on
`/a/b/c`. -/
theorem initConfig_malformed_disabled_witness :
    initConfig (some "a/b".toList) (some "/t".toList) = none ∧
      ∀ p, rewrite (initConfig (some "a/b".toList) (some "/t".toList)) p = p :=
  initConfig_malformed_disabled (some "a/b".toList) (some "/t".toList)
    (Or.inr (Or.inr (Or.inl ⟨"a/b".toList, rfl, by decide⟩)))

theorem underSource_decomp {s p : FsPath} (h : underSource s p = true) :
    ∃ rest, p = s ++ rest ∧ p.drop s.length = rest ∧
      (rest = [] ∨ ∃ r, rest = '/' :: r) := by
  rcases underSource_iff.1 h with h | ⟨r, hr⟩
  · exact ⟨[], by simp [h], by simp [h, List.drop_length], Or.inl rfl⟩
  · refine ⟨'/' :: r, ?_, ?_, Or.inr ⟨r, rfl⟩⟩
    · rw [← hr, List.append_assoc]; rfl
    · rw [← hr, List.append_assoc, List.singleton_append, List.drop_left]

theorem underSource_rewrite_false {s t : FsPath}
    (h1 : underSource s t = false) (h2 : underSource t s = false)
    {rest : FsPath} (hrest : rest = [] ∨ ∃ r, rest = '/' :: r) :
    underSource s (t ++ rest) = false := by
  rw [underSource_eq_false] at h1 h2 ⊢
  rintro (heq | hpre)
  · rcases hrest with hnil | ⟨r, hr⟩
    · subst hnil
      exact h2 (Or.inl (by simpa using heq.symm))
    · subst hr
      refine h2 (Or.inr ⟨r, ?_⟩)
      rw [List.append_assoc, List.singleton_append, heq]
  · rcases hrest with hnil | ⟨r, hr⟩
    · subst hnil
      exact h1 (Or.inr (by simpa using hpre))
    · subst hr
      rcases List.prefix_or_prefix_of_prefix hpre (List.prefix_append t ('/' :: r))
        with hl | hr2
      · exact h1 (Or.inr hl)
      · by_cases hlen : t.length ≤ s.length
        · have hts : t <+: s :=
            List.prefix_of_prefix_length_le hr2 (List.prefix_append s ['/']) hlen
          obtain ⟨u, hu⟩ := hts
          cases u with
          | nil => exact h2 (Or.inl (by simpa using hu.symm))
          | cons c u' =>
            have hcan : u' ++ ['/'] <+: r := by
              have hp' : t ++ ((c :: u') ++ ['/']) <+: t ++ ('/' :: r) := by
                rw [← List.append_assoc, hu]
                simpa using hpre
              have := (List.prefix_append_right_inj t).1 hp'
              rw [List.cons_append, List.cons_prefix_cons] at this
              rcases this with ⟨hc, hrest'⟩
              subst hc
              exact hrest'
            refine h2 (Or.inr ⟨u', ?_⟩)
            have hc : c = '/' := by
              have hp' : t ++ ((c :: u') ++ ['/']) <+: t ++ ('/' :: r) := by
                rw [← List.append_assoc, hu]
                simpa using hpre
              have := (List.prefix_append_right_inj t).1 hp'
              rw [List.cons_append, List.cons_prefix_cons] at this
              exact this.1
            rw [List.append_assoc, List.singleton_append, ← hu, hc]
        · have hlt : t.length = s.length + 1 := by
            have hle : t.length ≤ s.length + 1 := by
              simpa using hr2.length_le
            omega
          have ht : t = s ++ ['/'] := hr2.eq_of_length (by simpa using hlt)
          exact h1 (Or.inr (ht ▸ List.prefix_refl (s ++ ['/'])))

theorem rewrite_self_id (s p : FsPath) : rewrite (some (s, s)) p = p := by
  by_cases hp : underSource s p = true
  · obtain ⟨rest, hpe, hdrop, _⟩ := underSource_decomp hp
    simp [rewrite, hp, hdrop, hpe]
  · simp only [rewrite]
    rw [if_neg hp]

theorem rewrite_idem_aux (s t p : FsPath)
    (h1 : underSource s t = false) (h2 : underSource t s = false) :
    rewrite (some (s, t)) (rewrite (some (s, t)) p) = rewrite (some (s, t)) p := by
  by_cases hp : underSource s p = true
  · obtain ⟨rest, _, hdrop, hshape⟩ := underSource_decomp hp
    have hfirst : rewrite (some (s, t)) p = t ++ rest := by
      simp [rewrite, hp, hdrop]
    rw [hfirst]
    have hfalse : underSource s (t ++ rest) = false :=
      underSource_rewrite_false h1 h2 hshape
    simp [rewrite, hfalse]
  · have hfirst : rewrite (some (s, t)) p = p := by
      simp only [rewrite]
      rw [if_neg hp]
    rw [hfirst]
    exact hfirst

/-- Counterexample to C8 as stated: with `sourceDir = /a/b` and
`targetDir = /a`, the target does not lie under the source on a segment
boundary, yet the rewrite rule is not idempotent on `/a/b/b/c`: the first
application yields `/a/b/c`, which is again under the source and is rewritten
once more to `/a/c`. -/
theorem rewrite_not_idempotent_counterexample :
    underSource "/a/b".toList "/a".toList = false ∧
    rewrite (some ("/a/b".toList, "/a".toList))
        (rewrite (some ("/a/b".toList, "/a".toList)) "/a/b/b/c".toList)
      ≠ rewrite (some ("/a/b".toList, "/a".toList)) "/a/b/b/c".toList := by
  decide

/-- Claim C8 (amended): the rewrite rule is idempotent for every configuration
in which neither directory lies under the other on a path-segment boundary
(the stated condition, that the target not lie under the source, is not
sufficient); and for every configuration with equal source and target the
rule is the identity function. -/
theorem rewrite_idempotent_of_not_nested (s t p : FsPath) :
    (underSource s t = false → underSource t s = false →
      rewrite (some (s, t)) (rewrite (some (s, t)) p) = rewrite (some (s, t)) p) ∧
    rewrite (some (s, s)) p = p :=
  ⟨fun h1 h2 => rewrite_idem_aux s t p h1 h2, rewrite_self_id s p⟩

/-- Witness for the amended C8 with `sourceDir = /a`, `targetDir = /b`
(neither under the other) on the path `/a/x`. -/
theorem rewrite_idempotent_of_not_nested_witness :
    rewrite (some ("/a".toList, "/b".toList))
        (rewrite (some ("/a".toList, "/b".toList)) "/a/x".toList)
      = rewrite (some ("/a".toList, "/b".toList)) "/a/x".toList :=
  (rewrite_idempotent_of_not_nested "/a".toList "/b".toList "/a/x".toList).1
    (by decide) (by decide)

/-- Abstraction of the process state seen by the Python glue: the environment
(`os.environ`), file-system oracles (`Path.exists`, `Path.is_dir`,
`Path.iterdir` as entry names, `Path.read_text`), the current and home
directories, the directory holding `core.py` (`Path(__file__).parent`), and
the exit code `subprocess.run` reports for a command. -/
structure World where
  env : String → Option String
  pathExists : String → Bool
  isDir : String → Bool
  listDir : String → List String
  readFile : String → String
  cwd : String
  home : String
  pkgDir : String
  run : List String → Int

/-- `DEFAULT_DYLIB_PATH` from core.py:
`Path.home() / ".local" / "share" / "cursor-subagent" / "libcursor_redirect.dylib"`. -/
def DEFAULT_DYLIB_PATH (w : World) : String :=
  w.home ++ "/.local/share/cursor-subagent/libcursor_redirect.dylib"

/-- Fallback search of `get_dylib_path` from core.py, after the environment
override: the default location, then the current directory, then the package
directory, each returned when a file exists there, and the default location
otherwise. -/
def dylibFallback (w : World) : String :=
  if w.pathExists (DEFAULT_DYLIB_PATH w) then DEFAULT_DYLIB_PATH w
  else if w.pathExists (w.cwd ++ "/libcursor_redirect.dylib") then
    w.cwd ++ "/libcursor_redirect.dylib"
  else if w.pathExists (w.pkgDir ++ "/libcursor_redirect.dylib") then
    w.pkgDir ++ "/libcursor_redirect.dylib"
  else DEFAULT_DYLIB_PATH w

/-- `get_dylib_path` from core.py.  The walrus test
`if env_path := os.environ.get("CURSOR_SUBAGENT_DYLIB_PATH")` is a Python
truthiness test, so a variable set to the empty string does not take the
override branch. -/
def get_dylib_path (w : World) : String :=
  match w.env "CURSOR_SUBAGENT_DYLIB_PATH" with
  | some envPath => if envPath ≠ "" then envPath else dylibFallback w
  | none => dylibFallback w

/-- `get_project_root` from core.py: `Path.cwd()`. -/
def get_project_root (w : World) : String := w.cwd

/-- `get_agents_dir` from core.py: `get_project_root() / ".cursor" / "agents"`. -/
def get_agents_dir (w : World) : String := get_project_root w ++ "/.cursor/agents"

/-- `get_cursor_agent_path` from core.py:
`Path.home() / ".local" / "bin" / "cursor-agent"`. -/
def get_cursor_agent_path (w : World) : String := w.home ++ "/.local/bin/cursor-agent"

/-- Environment dictionary built by `run_with_agent` in core.py lines 124-127
(and identically by the spawn-agent branch of server.py lines 157-160): a
copy of `os.environ` with the three redirection variables assigned. -/
def redirectEnv (w : World) (dylibPath agentPath : String) : String → Option String :=
  fun k =>
    if k = "DYLD_INSERT_LIBRARIES" then some dylibPath
    else if k = "CURSOR_REDIRECT_TARGET" then some agentPath
    else if k = "CURSOR_REDIRECT_SOURCE" then some (get_project_root w ++ "/.cursor")
    else w.env k

/-- Outcome of `run_with_agent`: an early error exit code, or the command,
environment, and working directory handed to `subprocess.run` together with
the child exit code the function returns. -/
inductive LaunchResult where
  | failed (code : Int)
  | launched (cmd : List String) (env : String → Option String) (cwd : String) (code : Int)

/-- True exactly on the `launched` outcome. -/
def LaunchResult.isLaunched : LaunchResult → Bool
  | .launched _ _ _ _ => true
  | .failed _ => false

/-- `run_with_agent` from core.py: checks that the agent directory exists,
resolves the workspace, checks the dylib and the cursor-agent executable, and
runs the executable with the redirect environment, returning its exit code. -/
def run_with_agent (w : World) (agent_name : String) (cursor_agent_args : List String)
    (workspace_path : Option String) : LaunchResult :=
  let agent_path := get_agents_dir w ++ "/" ++ agent_name
  if !w.pathExists agent_path then .failed 1
  else
    let ws := workspace_path.getD (get_project_root w)
    let dylib_path := get_dylib_path w
    if !w.pathExists dylib_path then .failed 1
    else
      let env := redirectEnv w dylib_path agent_path
      let cursor_agent := get_cursor_agent_path w
      if !w.pathExists cursor_agent then .failed 1
      else
        let cmd := cursor_agent :: cursor_agent_args
        .launched cmd env ws (w.run cmd)

/-- Command, environment, and working directory the spawn-agent branch of
server.py (lines 127-169) hands to `subprocess.run` when its agent and dylib
existence checks pass, `none` when a check fails before the launch. -/
def spawnLaunch (w : World) (agent_name prompt : String) (model : Option String) :
    Option (List String × (String → Option String) × String) :=
  let cursor_args := ["-p", prompt, "--output-format=text", "--force", "--approve-mcps"] ++
    (match model with | some m => ["--model", m] | none => [])
  let agent_path := get_agents_dir w ++ "/" ++ agent_name
  if !w.pathExists agent_path then none
  else if !w.pathExists (get_dylib_path w) then none
  else
    some (get_cursor_agent_path w :: cursor_args,
          redirectEnv w (get_dylib_path w) agent_path,
          get_project_root w)

theorem agents_dir_append (w : World) (name : String) :
    get_agents_dir w ++ "/" ++ name = get_project_root w ++ "/.cursor/agents/" ++ name := by
  simp only [get_agents_dir, get_project_root, String.append_assoc]
  congr 1

/-- Claim C4: for every existing agent, with the dylib and the executable
present, `run_with_agent` starts the target executable with an environment
that sets exactly three variables — `DYLD_INSERT_LIBRARIES` naming the shared
library to inject, `CURSOR_REDIRECT_SOURCE` (the spec's `REDIRECT_SOURCE`)
set to `<project root>/.cursor`, and `CURSOR_REDIRECT_TARGET` (the spec's
`REDIRECT_TARGET`) set to `<project root>/.cursor/agents/<name>` — while
every other inherited variable passes through unchanged; the MCP spawn-agent
path builds the same environment. -/
theorem run_with_agent_env (w : World) (name : String) (args : List String)
    (ws : Option String)
    (hagent : w.pathExists (get_agents_dir w ++ "/" ++ name) = true)
    (hdylib : w.pathExists (get_dylib_path w) = true)
    (hcursor : w.pathExists (get_cursor_agent_path w) = true) :
    run_with_agent w name args ws =
      LaunchResult.launched (get_cursor_agent_path w :: args)
        (redirectEnv w (get_dylib_path w) (get_agents_dir w ++ "/" ++ name))
        (ws.getD (get_project_root w))
        (w.run (get_cursor_agent_path w :: args)) ∧
    (∀ prompt model, ∃ cmd,
      spawnLaunch w name prompt model =
        some (cmd,
              redirectEnv w (get_dylib_path w) (get_agents_dir w ++ "/" ++ name),
              get_project_root w)) ∧
    redirectEnv w (get_dylib_path w) (get_agents_dir w ++ "/" ++ name)
        "DYLD_INSERT_LIBRARIES" = some (get_dylib_path w) ∧
    redirectEnv w (get_dylib_path w) (get_agents_dir w ++ "/" ++ name)
        "CURSOR_REDIRECT_SOURCE" = some (get_project_root w ++ "/.cursor") ∧
    redirectEnv w (get_dylib_path w) (get_agents_dir w ++ "/" ++ name)
        "CURSOR_REDIRECT_TARGET"
      = some (get_project_root w ++ "/.cursor/agents/" ++ name) ∧
    (∀ k, k ≠ "DYLD_INSERT_LIBRARIES" → k ≠ "CURSOR_REDIRECT_TARGET" →
      k ≠ "CURSOR_REDIRECT_SOURCE" →
      redirectEnv w (get_dylib_path w) (get_agents_dir w ++ "/" ++ name) k = w.env k) := by
  refine ⟨?_, ?_, ?_, ?_, ?_, ?_⟩
  · simp [run_with_agent, hagent, hdylib, hcursor]
  · intro prompt model
    simp [spawnLaunch, hagent, hdylib]
  · simp only [redirectEnv]
    rw [if_pos trivial]
  · simp only [redirectEnv]
    rw [if_neg (by decide), if_neg (by decide), if_pos trivial]
  · simp only [redirectEnv]
    rw [if_neg (by decide), if_pos trivial, agents_dir_append]
  · intro k h1 h2 h3
    simp only [redirectEnv]
    rw [if_neg h1, if_neg h2, if_neg h3]

/-- World used by the closed C4 witness: project root `/proj`, home `/h`,
an agent directory `backend`, the dylib at its default location, and the
cursor-agent executable installed. -/
def w4 : World where
  env := fun _ => none
  pathExists := fun p =>
    p = "/proj/.cursor/agents/backend" ||
    p = "/h/.local/share/cursor-subagent/libcursor_redirect.dylib" ||
    p = "/h/.local/bin/cursor-agent"
  isDir := fun _ => false
  listDir := fun _ => []
  readFile := fun _ => ""
  cwd := "/proj"
  home := "/h"
  pkgDir := "/pkg"
  run := fun _ => 0

/-- Witness for C4: in `w4` the agent `backend` launches and the redirect
environment carries the three protocol variables with their concrete
values. -/
theorem run_with_agent_env_witness :
    run_with_agent w4 "backend" [] none =
      LaunchResult.launched [get_cursor_agent_path w4]
        (redirectEnv w4 (get_dylib_path w4) (get_agents_dir w4 ++ "/" ++ "backend"))
        (get_project_root w4) (w4.run [get_cursor_agent_path w4]) ∧
    redirectEnv w4 (get_dylib_path w4) (get_agents_dir w4 ++ "/" ++ "backend")
        "CURSOR_REDIRECT_SOURCE" = some "/proj/.cursor" ∧
    redirectEnv w4 (get_dylib_path w4) (get_agents_dir w4 ++ "/" ++ "backend")
        "CURSOR_REDIRECT_TARGET" = some "/proj/.cursor/agents/backend" := by
  have h := run_with_agent_env w4 "backend" [] none (by decide) (by decide) (by decide)
  exact ⟨h.1, h.2.2.2.1, h.2.2.2.2.1⟩

/-- World used by the C7 theorems: `CURSOR_SUBAGENT_DYLIB_PATH` is set to the
empty string and the dylib exists at the default location under home `/h`. -/
def w7 : World where
  env := fun k => if k = "CURSOR_SUBAGENT_DYLIB_PATH" then some "" else none
  pathExists := fun p =>
    p = "/h/.local/share/cursor-subagent/libcursor_redirect.dylib"
  isDir := fun _ => false
  listDir := fun _ => []
  readFile := fun _ => ""
  cwd := "/proj"
  home := "/h"
  pkgDir := "/pkg"
  run := fun _ => 0

/-- Counterexample to C7 as stated: in `w7` the override variable is set (to
the empty string), yet `get_dylib_path` does not return that value — Python
truthiness sends the empty string down the fallback search, which returns the
default location. -/
theorem get_dylib_path_empty_override_counterexample :
    w7.env "CURSOR_SUBAGENT_DYLIB_PATH" = some "" ∧
    get_dylib_path w7 ≠ "" ∧
    get_dylib_path w7 = DEFAULT_DYLIB_PATH w7 := by
  refine ⟨rfl, by decide, rfl⟩

/-- Claim C7 (amended): when `CURSOR_SUBAGENT_DYLIB_PATH` is set to a
non-empty value, `get_dylib_path` returns exactly that value, whether or not
a file exists there; when the variable is unset or empty, it returns the
default location when a file exists there, falling back to the current
directory, then the package directory, then the default location. -/
theorem get_dylib_path_spec (w : World) :
    (∀ p, w.env "CURSOR_SUBAGENT_DYLIB_PATH" = some p → p ≠ "" →
      get_dylib_path w = p) ∧
    ((w.env "CURSOR_SUBAGENT_DYLIB_PATH" = none ∨
      w.env "CURSOR_SUBAGENT_DYLIB_PATH" = some "") →
      (w.pathExists (DEFAULT_DYLIB_PATH w) = true →
        get_dylib_path w = DEFAULT_DYLIB_PATH w) ∧
      (w.pathExists (DEFAULT_DYLIB_PATH w) = false →
       w.pathExists (w.cwd ++ "/libcursor_redirect.dylib") = true →
        get_dylib_path w = w.cwd ++ "/libcursor_redirect.dylib") ∧
      (w.pathExists (DEFAULT_DYLIB_PATH w) = false →
       w.pathExists (w.cwd ++ "/libcursor_redirect.dylib") = false →
       w.pathExists (w.pkgDir ++ "/libcursor_redirect.dylib") = true →
        get_dylib_path w = w.pkgDir ++ "/libcursor_redirect.dylib") ∧
      (w.pathExists (DEFAULT_DYLIB_PATH w) = false →
       w.pathExists (w.cwd ++ "/libcursor_redirect.dylib") = false →
       w.pathExists (w.pkgDir ++ "/libcursor_redirect.dylib") = false →
        get_dylib_path w = DEFAULT_DYLIB_PATH w)) := by
  constructor
  · intro p hp hne
    simp [get_dylib_path, hp, hne]
  · intro henv
    have hfb : get_dylib_path w = dylibFallback w := by
      rcases henv with h | h <;> simp [get_dylib_path, h]
    refine ⟨fun h1 => ?_, fun h1 h2 => ?_, fun h1 h2 h3 => ?_, fun h1 h2 h3 => ?_⟩
    · rw [hfb]; simp [dylibFallback, h1]
    · rw [hfb]; simp [dylibFallback, h1, h2]
    · rw [hfb]; simp [dylibFallback, h1, h2, h3]
    · rw [hfb]; simp [dylibFallback, h1, h2, h3]

/-- Witness for the amended C7: in `w7` (override empty, dylib present at the
default location) the fallback returns the default location. -/
theorem get_dylib_path_spec_witness :
    get_dylib_path w7 = DEFAULT_DYLIB_PATH w7 :=
  ((get_dylib_path_spec w7).2 (Or.inr rfl)).1 (by decide)

/-- Names bound at module level in core.py: its two constants and seven
functions.  No `create_agent` is defined anywhere in core.py. -/
def coreModuleNames : List String :=
  ["DEFAULT_DYLIB_DIR", "DEFAULT_DYLIB_PATH", "get_dylib_path",
   "get_project_root", "get_agents_dir", "get_cursor_agent_path",
   "list_agents", "get_agent_info", "run_with_agent"]

/-- Names server.py imports from cursor_subagent.core (server.py lines
15-20). -/
def serverCoreImports : List String :=
  ["list_agents", "get_agent_info", "create_agent", "run_with_agent"]

/-- Import of cursor_subagent.server: the `from .core import (...)` statement
succeeds only when every requested name is bound in core; the first missing
name raises `ImportError` naming it. -/
def importServerModule : Except String Unit :=
  match serverCoreImports.find? (fun n => !coreModuleNames.contains n) with
  | some n => .error ("ImportError: cannot import name " ++ n)
  | none => .ok ()

/-- Import of the cursor_subagent package: `__init__.py` line 8 runs
`from .server import main`, which first imports cursor_subagent.server;
cli.py likewise imports `.server` and `.core`, so the CLI entry point, the
MCP server entry point and `call_tool` are all reached only through this
import. -/
def importCursorSubagent : Except String Unit := importServerModule

/-- Claim C5: importing the cursor_subagent package always raises
`ImportError`: server.py imports the name `create_agent` from core, core
binds no such name, and every public entry point (CLI main, MCP server,
`call_tool`) lies behind this import, so all of them are unreachable. -/
theorem import_cursor_subagent_fails :
    coreModuleNames.contains "create_agent" = false ∧
    importCursorSubagent = .error "ImportError: cannot import name create_agent" :=
  ⟨rfl, rfl⟩

/-- Options parsed by cli.py main's argparse parser: `-a` or `--agent NAME`
(stores a value), `-v` or `--version` and `-h` or `--help` (store true). -/
structure ParsedArgs where
  agent : Option String
  version : Bool
  help : Bool
deriving DecidableEq

/-- How the parser treats one token.  A single token can set several of the
wrapper options at once (argparse short-option clustering, e.g. `-vh`), and
can additionally end in the value-taking option `-a` — with its value either
attached (`-vhax`, `--agent=x`) or taken from the following token (`-vha`,
`--agent`).  A token can also be a hard usage error (argparse calls
`parser.error()`, which exits the process with status 2, e.g. `-vx` whose
second cluster character names no option, or `--version=x` giving an explicit
argument to a zero-argument option), or the `--` separator, or an
unrecognized token kept for forwarding. -/
inductive TokKind where
  | flags (ver hlp : Bool)
  | flagsThenAgentNext (ver hlp : Bool)
  | flagsThenAgentVal (ver hlp : Bool) (v : String)
  | usageError
  | doubleDash
  | plain
deriving DecidableEq

/-- Splits a token at its first equals sign, as argparse does before option
lookup (character-list form). -/
def eqSplit : List Char → List Char × Option (List Char)
  | [] => ([], none)
  | c :: cs =>
      if c = '=' then ([], some cs)
      else
        let r := eqSplit cs
        (c :: r.1, r.2)

/-- Cluster of short options after a leading known flag character, as
argparse processes the explicit argument of a zero-argument short option:
each further `v` or `h` sets its flag, a `a` turns the remaining characters
into the agent value (or, when none remain, consumes the next token), and
any other character is a usage error (argparse: ignored explicit
argument). -/
def shortCluster : List Char → Bool → Bool → TokKind
  | [], ver, hlp => .flags ver hlp
  | c :: cs, ver, hlp =>
      if c = 'v' then shortCluster cs true hlp
      else if c = 'h' then shortCluster cs ver true
      else if c = 'a' then
        match cs with
        | [] => .flagsThenAgentNext ver hlp
        | _ => .flagsThenAgentVal ver hlp (String.mk cs)
      else .usageError

/-- Classification of a token by cli.py main (argparse configuration of
cli.py lines 104-115, behaviour checked against CPython 3.11 argparse):
the token is split at its first equals sign; an exact or unambiguously
abbreviated long option (allow_abbrev, at least three characters) is
intercepted, with an attached value for `--agent=x` and a usage error for an
explicit argument to `--version` or `--help`; the exact short option `-a`
takes an attached (`-ax`, `-a=x`) or following value; `-v=x` and `-h=x` are
usage errors; `--` is the separator; `--=x` is ambiguous (usage error); a
single-dash token starting with `-a` carries an attached value, and one
starting with `-v` or `-h` is a short-option cluster; every other token —
including unknown options such as `-p`, `--model` or `-xv`, negative
numbers, and `-` — is unrecognized and kept, in order, in the remainder of
`parse_known_args`. -/
def classify (t : String) : TokKind :=
  let s := t.toList
  let key := (eqSplit s).1
  let val := (eqSplit s).2
  if key.isPrefixOf "--agent".toList && decide (3 ≤ key.length) then
    match val with
    | some v => .flagsThenAgentVal false false (String.mk v)
    | none => .flagsThenAgentNext false false
  else if key.isPrefixOf "--version".toList && decide (3 ≤ key.length) then
    match val with
    | some _ => .usageError
    | none => .flags true false
  else if key.isPrefixOf "--help".toList && decide (3 ≤ key.length) then
    match val with
    | some _ => .usageError
    | none => .flags false true
  else if key = ['-', 'a'] then
    match val with
    | some v => .flagsThenAgentVal false false (String.mk v)
    | none => .flagsThenAgentNext false false
  else if (key = ['-', 'v'] || key = ['-', 'h']) && val.isSome then .usageError
  else if s = ['-', '-'] then .doubleDash
  else if key = ['-', '-'] && val.isSome then .usageError
  else
    match s with
    | '-' :: 'a' :: c :: cs => .flagsThenAgentVal false false (String.mk (c :: cs))
    | '-' :: 'v' :: rest => shortCluster rest true false
    | '-' :: 'h' :: rest => shortCluster rest false true
    | _ => .plain

/-- Matches the Python argparse negative-number pattern (a dash followed by
digits, or by digits, a dot and at least one digit); since none of the
parser option strings look numeric, such tokens count as positionals. -/
def isNegNumber (s : List Char) : Bool :=
  match s with
  | '-' :: rest =>
      (!rest.isEmpty && rest.all (fun c => c.isDigit)) ||
      (match rest.dropWhile (fun c => c.isDigit) with
       | '.' :: frac => !frac.isEmpty && frac.all (fun c => c.isDigit)
       | _ => false)
  | _ => false

/-- Argparse option-likeness of a candidate option argument: a token of at
least two characters starting with a dash, except negative numbers and
tokens containing a space; a value-taking option refuses an option-like next
token (argparse: expected one argument, a usage error). -/
def optionLike (v : String) : Bool :=
  match v.toList with
  | '-' :: c :: cs =>
      !isNegNumber ('-' :: c :: cs) && !(('-' :: c :: cs).contains (Char.ofNat 32))
  | _ => false

/-- Store_true semantics: flags already set stay set. -/
def applyFlags (acc : ParsedArgs) (ver hlp : Bool) : ParsedArgs :=
  { acc with version := acc.version || ver, help := acc.help || hlp }

/-- `parser.parse_known_args()` from cli.py main: intercepted tokens update
the parsed record (a trailing `-a` consuming the following non-option-like
token as value), every unrecognized token is kept, in order, in the
remainder, the `--` separator stops option interception with the separator
and everything after it kept in the remainder (CPython 3.11 behaviour), and
`none` models `parser.error()`, which exits the process with status 2 before
`main` proceeds. -/
def parse_known_args : List String → ParsedArgs → Option (ParsedArgs × List String)
  | [], acc => some (acc, [])
  | t :: rest, acc =>
    match classify t, rest with
    | .flags ver hlp, rest => parse_known_args rest (applyFlags acc ver hlp)
    | .flagsThenAgentNext ver hlp, v :: rest' =>
        if optionLike v then none
        else parse_known_args rest' { applyFlags acc ver hlp with agent := some v }
    | .flagsThenAgentNext _ _, [] => none
    | .flagsThenAgentVal ver hlp v, rest =>
        parse_known_args rest { applyFlags acc ver hlp with agent := some v }
    | .usageError, _ => none
    | .doubleDash, rest => some (acc, t :: rest)
    | .plain, rest =>
        (parse_known_args rest acc).map (fun r => (r.1, t :: r.2))

/-- Outcome of cli.py `main`: a usage error from argparse (process exits with
status 2 before the body of `main` runs), one of the handled branches, or the
plain-forwarding branch with the exact command handed to `subprocess.run`
and the exit code returned. -/
inductive CliOutcome where
  | usageError
  | helpShown
  | versionShown
  | listAgentsRun
  | mcpServerRun
  | dylibMissing
  | cursorAgentMissing
  | ranWithAgent (name : String) (rest : List String)
  | forwarded (cmd : List String) (code : Int)

/-- `main` from cli.py: parse known args; handle `--help`, `--version`, the
`list-agents` and `mcp-server` subcommands; check the dylib when an agent is
requested; check the cursor-agent executable; then either run with the agent
or forward the remaining arguments verbatim and return the child exit
code. -/
def cliMain (w : World) (argv : List String) : CliOutcome :=
  match parse_known_args argv ⟨none, false, false⟩ with
  | none => .usageError
  | some (args, remaining) =>
    if args.help then .helpShown
    else if args.version then .versionShown
    else if remaining.head? = some "list-agents" then .listAgentsRun
    else if remaining.head? = some "mcp-server" then .mcpServerRun
    else
      match args.agent with
      | some name =>
        if !w.pathExists (get_dylib_path w) then .dylibMissing
        else if !w.pathExists (get_cursor_agent_path w) then .cursorAgentMissing
        else .ranWithAgent name remaining
      | none =>
        if !w.pathExists (get_cursor_agent_path w) then .cursorAgentMissing
        else .forwarded (get_cursor_agent_path w :: remaining)
          (w.run (get_cursor_agent_path w :: remaining))

/-- World used by the C6 witness: only the cursor-agent executable exists. -/
def w6 : World where
  env := fun _ => none
  pathExists := fun p => p = "/h/.local/bin/cursor-agent"
  isDir := fun _ => false
  listDir := fun _ => []
  readFile := fun _ => ""
  cwd := "/proj"
  home := "/h"
  pkgDir := "/pkg"
  run := fun _ => 0

/-- Fidelity checks of the token model against CPython 3.11 argparse under
the cli.py parser configuration: the cluster `-vh` sets both flags (so help
is shown and nothing is forwarded), `-vx` is a usage error exiting with
status 2, `-vhax` is a cluster ending in an attached agent value, `-a=x`
splits at the equals sign, `--version=x` rejects the explicit argument, and
`--` stops interception keeping the separator and what follows in the
remainder. -/
theorem classify_cluster_checks :
    classify "-vh" = .flags true true ∧
    classify "-vx" = .usageError ∧
    classify "-vhax" = .flagsThenAgentVal true true "x" ∧
    classify "-a=x" = .flagsThenAgentVal false false "x" ∧
    classify "--version=x" = .usageError ∧
    parse_known_args ["-vh"] ⟨none, false, false⟩ = some (⟨none, true, true⟩, []) ∧
    parse_known_args ["-vx"] ⟨none, false, false⟩ = none ∧
    parse_known_args ["--", "-v"] ⟨none, false, false⟩
      = some (⟨none, false, false⟩, ["--", "-v"]) ∧
    cliMain w6 ["-vh"] = .helpShown ∧
    cliMain w6 ["-vx"] = .usageError :=
  ⟨rfl, rfl, rfl, rfl, rfl, rfl, rfl, rfl, rfl, rfl⟩

/-- `list_agents` from core.py: the names of the entries of the agents
directory that are directories and contain a top-level `.cursorrules` file;
the empty list when the agents directory does not exist. -/
def list_agents (w : World) : List String :=
  if !w.pathExists (get_agents_dir w) then []
  else (w.listDir (get_agents_dir w)).filter fun n =>
    w.isDir (get_agents_dir w ++ "/" ++ n) &&
    w.pathExists (get_agents_dir w ++ "/" ++ n ++ "/.cursorrules")

/-- Agent information dictionary built by `get_agent_info` from core.py. -/
structure AgentInfo where
  name : String
  path : String
  has_rules : Bool
  has_mcp_config : Bool
  description : Option String
deriving DecidableEq

/-- `get_agent_info` from core.py: `none` when the agent directory does not
exist; otherwise the info record, with `has_rules` true when a `.cursorrules`
file exists or a nonempty `rules` directory does, and the trimmed
`description.txt` when present. -/
def get_agent_info (w : World) (name : String) : Option AgentInfo :=
  let agent_path := get_agents_dir w ++ "/" ++ name
  if !w.pathExists agent_path then none
  else some {
    name := name
    path := agent_path
    has_rules := w.pathExists (agent_path ++ "/.cursorrules") ||
      (w.isDir (agent_path ++ "/rules") && !(w.listDir (agent_path ++ "/rules")).isEmpty)
    has_mcp_config := w.pathExists (agent_path ++ "/mcp.json")
    description :=
      if w.pathExists (agent_path ++ "/description.txt") then
        some (w.readFile (agent_path ++ "/description.txt")).trim
      else none
  }

/-- World used by the C9 theorem: one agent directory `helper` under
`/proj/.cursor/agents` holding only a nonempty `rules` subdirectory and no
`.cursorrules` file; the dylib is at its default location and the
cursor-agent executable is installed. -/
def w9 : World where
  env := fun _ => none
  pathExists := fun p =>
    p = "/proj/.cursor/agents" ||
    p = "/proj/.cursor/agents/helper" ||
    p = "/proj/.cursor/agents/helper/rules" ||
    p = "/h/.local/share/cursor-subagent/libcursor_redirect.dylib" ||
    p = "/h/.local/bin/cursor-agent"
  isDir := fun p =>
    p = "/proj/.cursor/agents/helper" || p = "/proj/.cursor/agents/helper/rules"
  listDir := fun p =>
    if p = "/proj/.cursor/agents" then ["helper"]
    else if p = "/proj/.cursor/agents/helper/rules" then ["main.md"]
    else []
  readFile := fun _ => ""
  cwd := "/proj"
  home := "/h"
  pkgDir := "/pkg"
  run := fun _ => 0

/-- Claim C9: `list_agents` returns exactly the names of subdirectories of
the agents directory that contain a top-level `.cursorrules` file, while
`run_with_agent` proceeds for any name whose directory merely exists: in
`w9` the agent `helper`, holding only a nonempty `rules` subdirectory,
launches although `list_agents` omits it, and `get_agent_info` still reports
`has_rules` as true. -/
theorem list_agents_run_with_agent_mismatch :
    (∀ w n, n ∈ list_agents w ↔
      (w.pathExists (get_agents_dir w) = true ∧ n ∈ w.listDir (get_agents_dir w) ∧
       w.isDir (get_agents_dir w ++ "/" ++ n) = true ∧
       w.pathExists (get_agents_dir w ++ "/" ++ n ++ "/.cursorrules") = true)) ∧
    list_agents w9 = [] ∧
    (run_with_agent w9 "helper" [] none).isLaunched = true ∧
    (get_agent_info w9 "helper").map AgentInfo.has_rules = some true := by
  refine ⟨?_, by decide, by decide, by decide⟩
  intro w n
  cases hdir : w.pathExists (get_agents_dir w) with
  | false => simp [list_agents, hdir]
  | true =>
    simp only [list_agents, hdir, Bool.not_true, Bool.false_eq_true, if_false,
      List.mem_filter, Bool.and_eq_true]
    tauto

/-- Timeout, in seconds, passed to `subprocess.run` by the spawn-agent branch
of server.py (five minutes). -/
def SPAWN_TIMEOUT_SECONDS : Nat := 300

/-- Outcome of the `subprocess.run` call inside the spawn-agent branch of
server.py: normal completion with exit code, stdout and stderr; a
`TimeoutExpired` raised after `SPAWN_TIMEOUT_SECONDS`; or another
exception. -/
inductive ProcResult where
  | completed (returncode : Int) (stdout stderr : String)
  | timeout
  | exception (msg : String)

/-- JSON body of one text content returned by the spawn-agent tool (fields
absent from a given branch of server.py are `none`). -/
structure SpawnResponse where
  success : Bool
  agent : Option String
  result : Option String
  error : Option String
  returncode : Option Int
  model : Option String
deriving DecidableEq

/-- Spawn-agent branch of `call_tool` from server.py (lines 121-210), the
subprocess outcome abstracted as `pr`: checks the agent directory and the
dylib, then answers by the child's outcome; every branch produces a
single-element list of text contents, represented by their JSON bodies. -/
def spawn_agent_tool (w : World) (agent_name : String) (model : Option String)
    (pr : ProcResult) : List SpawnResponse :=
  let agent_path := get_agents_dir w ++ "/" ++ agent_name
  if !w.pathExists agent_path then
    [{ success := false, agent := none, result := none,
       error := some ("Agent \x27" ++ agent_name ++ "\x27 does not exist"),
       returncode := none, model := none }]
  else if !w.pathExists (get_dylib_path w) then
    [{ success := false, agent := none, result := none,
       error := some "Dylib not found. Run \x27cursor-subagent --build\x27 first.",
       returncode := none, model := none }]
  else
    match pr with
    | .completed rc out err =>
      if rc = 0 then
        [{ success := true, agent := some agent_name, result := some out.trim,
           error := none, returncode := none,
           model := some (model.getD "default") }]
      else
        [{ success := false, agent := some agent_name, result := none,
           error := some ("cursor-agent failed: " ++ err.trim),
           returncode := some rc, model := none }]
    | .timeout =>
      [{ success := false, agent := none, result := none,
         error := some "Task timed out after 5 minutes",
         returncode := none, model := none }]
    | .exception m =>
      [{ success := false, agent := none, result := none,
         error := some ("Failed to execute agent: " ++ m),
         returncode := none, model := none }]

/-- Claim C10: the spawn-agent tool returns exactly one text result for every
invocation and never raises; when the subprocess exceeds the 300-second limit
the body reads success false with the message "Task timed out after 5
minutes"; a nonzero exit yields success false carrying the trimmed stderr and
the return code; a zero exit yields success true with the trimmed stdout; and
success is true only for a zero exit with the agent and dylib checks
passed. -/
theorem spawn_agent_tool_spec (w : World) (name : String) (model : Option String)
    (pr : ProcResult) :
    (spawn_agent_tool w name model pr).length = 1 ∧
    SPAWN_TIMEOUT_SECONDS = 300 ∧
    (w.pathExists (get_agents_dir w ++ "/" ++ name) = true →
     w.pathExists (get_dylib_path w) = true →
      (pr = .timeout →
        spawn_agent_tool w name model pr =
          [⟨false, none, none, some "Task timed out after 5 minutes", none, none⟩]) ∧
      (∀ rc out err, pr = .completed rc out err → rc ≠ 0 →
        spawn_agent_tool w name model pr =
          [⟨false, some name, none, some ("cursor-agent failed: " ++ err.trim),
            some rc, none⟩]) ∧
      (∀ out err, pr = .completed 0 out err →
        spawn_agent_tool w name model pr =
          [⟨true, some name, some out.trim, none, none,
            some (model.getD "default")⟩])) ∧
    (∀ r ∈ spawn_agent_tool w name model pr, r.success = true →
      w.pathExists (get_agents_dir w ++ "/" ++ name) = true ∧
      w.pathExists (get_dylib_path w) = true ∧
      ∃ out err, pr = .completed 0 out err) := by
  refine ⟨?_, rfl, ?_, ?_⟩
  · cases hA : w.pathExists (get_agents_dir w ++ "/" ++ name) with
    | false => simp [spawn_agent_tool, hA]
    | true =>
      cases hB : w.pathExists (get_dylib_path w) with
      | false => simp [spawn_agent_tool, hA, hB]
      | true =>
        cases pr with
        | completed rc out err =>
          by_cases hrc : rc = 0 <;> simp [spawn_agent_tool, hA, hB, hrc]
        | timeout => simp [spawn_agent_tool, hA, hB]
        | exception m => simp [spawn_agent_tool, hA, hB]
  · intro hA hB
    refine ⟨fun hpr => ?_, fun rc out err hpr hrc => ?_, fun out err hpr => ?_⟩
    · subst hpr; simp [spawn_agent_tool, hA, hB]
    · subst hpr; simp [spawn_agent_tool, hA, hB, hrc]
    · subst hpr; simp [spawn_agent_tool, hA, hB]
  · intro r hr hs
    cases hA : w.pathExists (get_agents_dir w ++ "/" ++ name) with
    | false =>
      simp [spawn_agent_tool, hA] at hr
      rw [hr] at hs
      cases hs
    | true =>
      cases hB : w.pathExists (get_dylib_path w) with
      | false =>
        simp [spawn_agent_tool, hA, hB] at hr
        rw [hr] at hs
        cases hs
      | true =>
        refine ⟨rfl, rfl, ?_⟩
        cases pr with
        | completed rc out err =>
          by_cases hrc : rc = 0
          · exact ⟨out, err, by rw [hrc]⟩
          · simp [spawn_agent_tool, hA, hB, hrc] at hr
            rw [hr] at hs
            cases hs
        | timeout =>
          simp [spawn_agent_tool, hA, hB] at hr
          rw [hr] at hs
          cases hs
        | exception m =>
          simp [spawn_agent_tool, hA, hB] at hr
          rw [hr] at hs
          cases hs

/-- Witness for C10: in `w4` (agent `backend` and dylib present) a timeout
produces the single timed-out body. -/
theorem spawn_agent_tool_spec_witness :
    spawn_agent_tool w4 "backend" none .timeout =
      [⟨false, none, none, some "Task timed out after 5 minutes", none, none⟩] :=
  (((spawn_agent_tool_spec w4 "backend" none .timeout).2.2.1
      (by decide) (by decide)).1 rfl)
